import Mathlib

/-
Shallow embedding of the admission webhooks of the ai-gateway-operator
repository (internal/webhook/v1alpha1): the AiGateway / ModelRouter
instance webhooks (defaulter + spec validator) and the AiGatewayClass /
ModelRouterClass class webhooks (default-singleton validator).

Conventions of the embedding:
  - Go strings are Lean `String`s; Go `int32` ports are `Int` (the code only
    compares ports and assigns the constant 4000, so no overflow arises).
  - A Go annotation map is an association list `List (String × String)`
    wrapped in `Option` to keep the `annotations != nil` distinction of the
    source; indexing a map where the key is absent yields `""` as in Go.
  - `runtime.Object` is the inductive `RuntimeObject`; the `%T` verb of the
    source's error messages is the function `RuntimeObject.goTypeName`.
  - The Kubernetes client's `List` call is passed in as its outcome, a value
    of `Except String (List _)`: `.error e` is a failing call whose error
    text is `e`, `.ok items` a successful call returning `items`.
  - Go `error` values are `AdmissionError`: `basic` for `errors.New` /
    plain `fmt.Errorf`, `listWrap` for `fmt.Errorf(".. %w", err)` wrapping,
    `invalidField` for a `field.Invalid` error aggregated by `ToAggregate`
    (path, key, value and detail kept as fields; `AdmissionError.message`
    renders the observable message text, `%q` of a plain value rendered as
    double-quote wrapping).
-/

/-- Object metadata: the parts of `metav1.ObjectMeta` the webhooks read
(`GetName`, `GetNamespace`, `GetAnnotations`). The namespace field is named
`ns` because `namespace` is a Lean keyword. -/
structure ObjectMeta where
  name : String
  ns : String
  annotations : Option (List (String × String))
deriving DecidableEq, Repr

/-- api/v1alpha1 `AiModel` (gateway family): discrete `Name` and `Provider`
fields. The router family's model list reuses this structure; its
validation code reads only the `name` field. -/
structure AiModel where
  name : String
  provider : String
deriving DecidableEq, Repr

/-- api/v1alpha1 `AiGatewaySpec`. -/
structure AiGatewaySpec where
  aiGatewayClassName : String
  port : Int
  aiModels : List AiModel
deriving DecidableEq, Repr

/-- api/v1alpha1 `AiGateway`. -/
structure AiGateway where
  metadata : ObjectMeta
  spec : AiGatewaySpec
deriving DecidableEq, Repr

/-- api/v1alpha1 `ModelRouterSpec`. -/
structure ModelRouterSpec where
  type : String
  port : Int
  aiModels : List AiModel
deriving DecidableEq, Repr

/-- api/v1alpha1 `ModelRouter`. -/
structure ModelRouter where
  metadata : ObjectMeta
  spec : ModelRouterSpec
deriving DecidableEq, Repr

/-- api/v1alpha1 `ModelRouterClassSpec` (field `Controller`). -/
structure ModelRouterClassSpec where
  controller : String
deriving DecidableEq, Repr

/-- api/v1alpha1 `ModelRouterClass`. -/
structure ModelRouterClass where
  metadata : ObjectMeta
  spec : ModelRouterClassSpec
deriving DecidableEq, Repr

/-- api/v1alpha1 `AiGatewayClassSpec`. The type's own file is not among the
given sources; mirroring `ModelRouterClassSpec` and the spec's data model
(a class carries a `controller` string), it has the one field the webhooks
never read. -/
structure AiGatewayClassSpec where
  controller : String
deriving DecidableEq, Repr

/-- api/v1alpha1 `AiGatewayClass` (metadata is all the webhook reads). -/
structure AiGatewayClass where
  metadata : ObjectMeta
  spec : AiGatewayClassSpec
deriving DecidableEq, Repr

/-- A type-erased `runtime.Object` admission payload: one constructor per
concrete kind of the repository, plus `other` for any further Go type,
carrying the string `%T` would print for it. -/
inductive RuntimeObject where
  | aiGateway (g : AiGateway)
  | aiGatewayClass (c : AiGatewayClass)
  | modelRouter (r : ModelRouter)
  | modelRouterClass (c : ModelRouterClass)
  | other (goType : String)
deriving DecidableEq, Repr

/-- What Go's `%T` verb prints for the payload (the webhooks receive
pointers, hence the leading `*`). -/
def RuntimeObject.goTypeName : RuntimeObject → String
  | .aiGateway _ => "*v1alpha1.AiGateway"
  | .aiGatewayClass _ => "*v1alpha1.AiGatewayClass"
  | .modelRouter _ => "*v1alpha1.ModelRouter"
  | .modelRouterClass _ => "*v1alpha1.ModelRouterClass"
  | .other t => t

/-- A Go `error` as the webhooks construct them. -/
inductive AdmissionError where
  | basic (msg : String)
  | listWrap (msg : String) (cause : String)
  | invalidField (path : String) (key : String) (value : String) (detail : String)
deriving DecidableEq, Repr

/-- The message text of an error: `listWrap` renders `%w` wrapping by
appending the cause; `invalidField` renders the `field.Error` format
`<path>[<key>]: Invalid value: "<value>": <detail>`. -/
def AdmissionError.message : AdmissionError → String
  | .basic m => m
  | .listWrap m cause => m ++ cause
  | .invalidField path key value detail =>
      path ++ "[" ++ key ++ "]: Invalid value: \"" ++ value ++ "\": " ++ detail

/-- The `(admission.Warnings, error)` result pair; warnings are
`Option (List String)` with `none` for Go's nil slice. -/
abbrev AdmissionResponse := Option (List String) × Option AdmissionError

/-- Go map indexing on an association list: the value at `key`, or `""`
when absent (Go's zero value for string). -/
def lookupAnnot : List (String × String) → String → String
  | [], _ => ""
  | (k, v) :: rest, key => if k = key then v else lookupAnnot rest key

/-- The check `annotations != nil && annotations[key] == "true"` shared by
both class webhooks. -/
def hasDefaultAnnot (annots : Option (List (String × String))) (key : String) : Bool :=
  match annots with
  | none => false
  | some m => lookupAnnot m key = "true"

/-- `strings.Cut(s, "/")` on the character list of `s`: `some (p, q)` when a
first `/` exists, splitting off the part before it and the part after it. -/
def cutChars : List Char → Option (List Char × List Char)
  | [] => none
  | c :: cs =>
    if c = '/' then some ([], cs)
    else
      match cutChars cs with
      | none => none
      | some (p, q) => some (c :: p, q)

/-- `strings.Cut(s, providerModelSeparator)` (the separator constant is the
one-character string `"/"`): Go's `(before, after, found)` triple. -/
def stringCut (s : String) : String × String × Bool :=
  match cutChars s.data with
  | none => (s, "", false)
  | some (p, q) => (⟨p⟩, ⟨q⟩, true)

/-- The malformed-model message `fmt.Errorf("model %q is malformed; format
must be 'provider/model-name'", model.Name)`. -/
def malformedModelMsg (name : String) : String :=
  "model \"" ++ name ++ "\" is malformed; format must be 'provider/model-name'"

/-- The per-component check of the model loop shared verbatim by
`validateAiGatewaySpec` and `validateModelRouterSpec` (empty-name check,
then `strings.Cut` with the malformed-name rejection). -/
def validateAiModelName (name : String) : Option AdmissionError :=
  if name = "" then some (.basic "AI model name cannot be empty")
  else
    let r := stringCut name
    if r.2.2 = false ∨ r.1 = "" ∨ r.2.1 = "" then some (.basic (malformedModelMsg name))
    else none

/-- internal/webhook/v1alpha1 `validateAiGatewaySpec`: port, model-list
emptiness, then the model loop (first failure wins). -/
def validateAiGatewaySpec (g : AiGateway) : AdmissionResponse :=
  if g.spec.port ≤ 0 then
    (none, some (.basic ("aiGateway port must be positive, got: " ++ toString g.spec.port)))
  else if g.spec.aiModels.length = 0 then
    (none, some (.basic "no AI models specified in AiGateway"))
  else
    match g.spec.aiModels.findSome? (fun m => validateAiModelName m.name) with
    | some e => (none, some e)
    | none => (none, none)

/-- internal/webhook/v1alpha1 `validateModelRouterSpec`: type, port,
model-list emptiness, then the model loop (first failure wins). -/
def validateModelRouterSpec (mr : ModelRouter) : AdmissionResponse :=
  if mr.spec.type = "" then
    (none, some (.basic "model router must specify a type"))
  else if mr.spec.port ≤ 0 then
    (none, some (.basic ("modelRouter port must be positive, got: " ++ toString mr.spec.port)))
  else if mr.spec.aiModels.length = 0 then
    (none, some (.basic "no AI models specified in ModelRouter"))
  else
    match mr.spec.aiModels.findSome? (fun m => validateAiModelName m.name) with
    | some e => (none, some e)
    | none => (none, none)

/-- `AiGatewayCustomDefaulter.Default`, spec level: the in-place mutation
`if Spec.Port == 0 { Spec.Port = 4000 }`. -/
def defaultAiGateway (g : AiGateway) : AiGateway :=
  if g.spec.port = 0 then { g with spec := { g.spec with port := 4000 } } else g

/-- `ModelRouterCustomDefaulter.Default`, spec level: the in-place mutation
`if Spec.Port == 0 { Spec.Port = 4000 }`. -/
def defaultModelRouter (mr : ModelRouter) : ModelRouter :=
  if mr.spec.port = 0 then { mr with spec := { mr.spec with port := 4000 } } else mr

/-- `AiGatewayCustomDefaulter.Default`, payload level: the type assertion,
then the port default on the matched object. -/
def aiGatewayDefault (obj : RuntimeObject) : Except String RuntimeObject :=
  match obj with
  | .aiGateway g => .ok (.aiGateway (defaultAiGateway g))
  | o => .error ("expected an AiGateway object but got " ++ o.goTypeName)

/-- `ModelRouterCustomDefaulter.Default`, payload level (the source writes
"an ModelRouter" in this message). -/
def modelRouterDefault (obj : RuntimeObject) : Except String RuntimeObject :=
  match obj with
  | .modelRouter mr => .ok (.modelRouter (defaultModelRouter mr))
  | o => .error ("expected an ModelRouter object but got " ++ o.goTypeName)

/-- `AiGatewayCustomValidator.ValidateCreate`. -/
def aiGatewayValidateCreate (obj : RuntimeObject) : AdmissionResponse :=
  match obj with
  | .aiGateway g => validateAiGatewaySpec g
  | o => (none, some (.basic ("expected a AiGateway object but got " ++ o.goTypeName)))

/-- `AiGatewayCustomValidator.ValidateUpdate` (the prior object is received
and ignored, as in the source's `_` parameter). -/
def aiGatewayValidateUpdate (_oldObj newObj : RuntimeObject) : AdmissionResponse :=
  match newObj with
  | .aiGateway g => validateAiGatewaySpec g
  | o => (none, some (.basic ("expected a AiGateway object for the newObj but got " ++ o.goTypeName)))

/-- `AiGatewayCustomValidator.ValidateDelete`: type assertion only, no spec
validation. -/
def aiGatewayValidateDelete (obj : RuntimeObject) : AdmissionResponse :=
  match obj with
  | .aiGateway _ => (none, none)
  | o => (none, some (.basic ("expected a AiGateway object but got " ++ o.goTypeName)))

/-- `ModelRouterCustomValidator.ValidateCreate`. -/
def modelRouterValidateCreate (obj : RuntimeObject) : AdmissionResponse :=
  match obj with
  | .modelRouter mr => validateModelRouterSpec mr
  | o => (none, some (.basic ("expected a ModelRouter object but got " ++ o.goTypeName)))

/-- `ModelRouterCustomValidator.ValidateUpdate` (the prior object is bound
as `oldObj` in the source and never read). -/
def modelRouterValidateUpdate (_oldObj newObj : RuntimeObject) : AdmissionResponse :=
  match newObj with
  | .modelRouter mr => validateModelRouterSpec mr
  | o => (none, some (.basic ("expected a ModelRouter object for the newObj but got " ++ o.goTypeName)))

/-- `ModelRouterCustomValidator.ValidateDelete`: type assertion only, no
spec validation. -/
def modelRouterValidateDelete (obj : RuntimeObject) : AdmissionResponse :=
  match obj with
  | .modelRouter _ => (none, none)
  | o => (none, some (.basic ("expected a ModelRouter object but got " ++ o.goTypeName)))

/-- The `DefaultClassAnnotation` constant of modelrouterclass_webhook.go. -/
def routerDefaultClassKey : String := "modelrouter.kubernetes.io/is-default-class"

/-- The `DefaultClassAnnotation` constant of the AiGatewayClass webhook. -/
def gatewayDefaultClassKey : String := "aigateway.kubernetes.io/is-default-class"

/-- Whether a ModelRouterClass carries the default-class annotation with
value exactly `"true"`. -/
def isRouterClassDefault (c : ModelRouterClass) : Bool :=
  hasDefaultAnnot c.metadata.annotations routerDefaultClassKey

/-- Whether an AiGatewayClass carries the default-class annotation with
value exactly `"true"`. -/
def isGatewayClassDefault (c : AiGatewayClass) : Bool :=
  hasDefaultAnnot c.metadata.annotations gatewayDefaultClassKey

/-- The conflict scan of `validateModelRouterClass`: the first listed class
whose name differs from the candidate's and which carries the default
annotation set to `"true"` (the loop skips same-named items with `continue`
and breaks at the first conflict). -/
def findRouterConflict (candName : String) : List ModelRouterClass → Option ModelRouterClass
  | [] => none
  | e :: rest =>
    if e.metadata.name = candName then findRouterConflict candName rest
    else if isRouterClassDefault e then some e
    else findRouterConflict candName rest

/-- The conflict scan of `validateAiGatewayClass`, identical in structure. -/
def findGatewayConflict (candName : String) : List AiGatewayClass → Option AiGatewayClass
  | [] => none
  | e :: rest =>
    if e.metadata.name = candName then findGatewayConflict candName rest
    else if isGatewayClassDefault e then some e
    else findGatewayConflict candName rest

/-- The detail string of the ModelRouterClass singleton-conflict error. -/
def routerConflictDetail (existingName : String) : String :=
  "another ModelRouterClass '" ++ existingName ++ "' already has the default class annotation set to 'true'. Only one ModelRouterClass can be marked as default"

/-- The detail string of the AiGatewayClass singleton-conflict error. -/
def gatewayConflictDetail (existingName : String) : String :=
  "another AiGatewayClass '" ++ existingName ++ "' already has the default class annotation set to 'true'. Only one AiGatewayClass can be marked as default"

/-- internal/webhook/v1alpha1 `validateModelRouterClass`: if the candidate
is marked default, list all classes (the listing outcome is the second
argument; it is only consulted on this branch), fail on a listing error
with a wrapping error, otherwise reject at the first differently-named
default-marked class with a `field.Invalid` aggregate; accept otherwise. -/
def validateModelRouterClass (c : ModelRouterClass)
    (listResult : Except String (List ModelRouterClass)) : AdmissionResponse :=
  if isRouterClassDefault c then
    match listResult with
    | .error e => (none, some (.listWrap "failed to list ModelRouterClass resources: " e))
    | .ok items =>
      match findRouterConflict c.metadata.name items with
      | some existing =>
          (none, some (.invalidField "metadata.annotations" routerDefaultClassKey "true"
            (routerConflictDetail existing.metadata.name)))
      | none => (none, none)
  else (none, none)

/-- internal/webhook/v1alpha1 `validateAiGatewayClass`, identical in
structure to `validateModelRouterClass`. -/
def validateAiGatewayClass (c : AiGatewayClass)
    (listResult : Except String (List AiGatewayClass)) : AdmissionResponse :=
  if isGatewayClassDefault c then
    match listResult with
    | .error e => (none, some (.listWrap "failed to list AiGatewayClass resources: " e))
    | .ok items =>
      match findGatewayConflict c.metadata.name items with
      | some existing =>
          (none, some (.invalidField "metadata.annotations" gatewayDefaultClassKey "true"
            (gatewayConflictDetail existing.metadata.name)))
      | none => (none, none)
  else (none, none)

/-- `ModelRouterClassCustomValidator.ValidateCreate`. -/
def modelRouterClassValidateCreate (obj : RuntimeObject)
    (listResult : Except String (List ModelRouterClass)) : AdmissionResponse :=
  match obj with
  | .modelRouterClass c => validateModelRouterClass c listResult
  | o => (none, some (.basic ("expected a ModelRouterClass object but got " ++ o.goTypeName)))

/-- `ModelRouterClassCustomValidator.ValidateUpdate` (prior object ignored). -/
def modelRouterClassValidateUpdate (_oldObj newObj : RuntimeObject)
    (listResult : Except String (List ModelRouterClass)) : AdmissionResponse :=
  match newObj with
  | .modelRouterClass c => validateModelRouterClass c listResult
  | o => (none, some (.basic ("expected a ModelRouterClass object for the newObj but got " ++ o.goTypeName)))

/-- `ModelRouterClassCustomValidator.ValidateDelete`: returns `(nil, nil)`
for every payload, with no type assertion. -/
def modelRouterClassValidateDelete (_obj : RuntimeObject) : AdmissionResponse :=
  (none, none)

/-- `AiGatewayClassCustomValidator.ValidateCreate`. -/
def aiGatewayClassValidateCreate (obj : RuntimeObject)
    (listResult : Except String (List AiGatewayClass)) : AdmissionResponse :=
  match obj with
  | .aiGatewayClass c => validateAiGatewayClass c listResult
  | o => (none, some (.basic ("expected a AiGatewayClass object but got " ++ o.goTypeName)))

/-- `AiGatewayClassCustomValidator.ValidateUpdate` (prior object ignored). -/
def aiGatewayClassValidateUpdate (_oldObj newObj : RuntimeObject)
    (listResult : Except String (List AiGatewayClass)) : AdmissionResponse :=
  match newObj with
  | .aiGatewayClass c => validateAiGatewayClass c listResult
  | o => (none, some (.basic ("expected a AiGatewayClass object for the newObj but got " ++ o.goTypeName)))

/-- `AiGatewayClassCustomValidator.ValidateDelete`: returns `(nil, nil)`
for every payload, with no type assertion. -/
def aiGatewayClassValidateDelete (_obj : RuntimeObject) : AdmissionResponse :=
  (none, none)

/-- Substring containment, used to state that an error message names a
value: `sub` occurs contiguously inside `s`. -/
def strContainsSub (s sub : String) : Prop :=
  ∃ pre post : String, s = pre ++ (sub ++ post)

/-- Metadata with no annotations, for concrete test objects. -/
def metaPlain : ObjectMeta := { name := "a", ns := "default", annotations := none }

/-- A ModelRouterClass named `A`, marked default. -/
def rcA : ModelRouterClass :=
  { metadata := { name := "A", ns := "default", annotations := some [(routerDefaultClassKey, "true")] },
    spec := { controller := "test-controller" } }

/-- A ModelRouterClass named `B`, marked default. -/
def rcB : ModelRouterClass :=
  { metadata := { name := "B", ns := "default", annotations := some [(routerDefaultClassKey, "true")] },
    spec := { controller := "test-controller" } }

/-- A ModelRouterClass with no annotations (not marked default). -/
def rcPlain : ModelRouterClass := { metadata := metaPlain, spec := { controller := "test-controller" } }

/-- An AiGatewayClass named `A`, marked default. -/
def gcA : AiGatewayClass :=
  { metadata := { name := "A", ns := "default", annotations := some [(gatewayDefaultClassKey, "true")] },
    spec := { controller := "test-controller" } }

/-- An AiGatewayClass named `B`, marked default. -/
def gcB : AiGatewayClass :=
  { metadata := { name := "B", ns := "default", annotations := some [(gatewayDefaultClassKey, "true")] },
    spec := { controller := "test-controller" } }

/-- An AiGatewayClass with no annotations (not marked default). -/
def gcPlain : AiGatewayClass := { metadata := metaPlain, spec := { controller := "test-controller" } }

/-- The failing input of the repository's own gateway webhook test "Should
admit creation if all required fields are valid": a valid port and a model
given by discrete name and provider fields. -/
def gwDiscreteModel : AiGateway :=
  { metadata := metaPlain,
    spec := { aiGatewayClassName := "", port := 4000,
              aiModels := [{ name := "gpt-4", provider := "openai" }] } }

/-- A gateway whose model has an empty provider field but a compound
`provider/model` name, as in the webhook test "Should deny creation if AI
model provider is empty" (modulo the name shape). -/
def gwEmptyProvider : AiGateway :=
  { metadata := metaPlain,
    spec := { aiGatewayClassName := "", port := 4000,
              aiModels := [{ name := "openai/gpt-4", provider := "" }] } }

/-- A gateway with a negative port. -/
def gwNegPort : AiGateway :=
  { metadata := metaPlain,
    spec := { aiGatewayClassName := "", port := -3,
              aiModels := [{ name := "openai/gpt-4", provider := "openai" }] } }

/-- A gateway with port zero. -/
def gwZeroPort : AiGateway :=
  { metadata := metaPlain,
    spec := { aiGatewayClassName := "", port := 0,
              aiModels := [{ name := "openai/gpt-4", provider := "openai" }] } }

/-- A router with empty type and port zero: both the type rule and the
port rule apply to it. -/
def mrNoType : ModelRouter :=
  { metadata := metaPlain, spec := { type := "", port := 0, aiModels := [] } }

/-- A router with a non-empty type and port zero. -/
def mrZeroPort : ModelRouter :=
  { metadata := metaPlain,
    spec := { type := "litellm", port := 0,
              aiModels := [{ name := "openai/gpt-4", provider := "" }] } }

/-- A router with a non-empty type and port 8080. -/
def mrValidPort : ModelRouter :=
  { metadata := metaPlain,
    spec := { type := "litellm", port := 8080,
              aiModels := [{ name := "openai/gpt-4", provider := "" }] } }

/- ------------------------------------------------------------------ -/
/- Helper lemmas.                                                      -/
/- ------------------------------------------------------------------ -/

theorem strContainsSub_iff_chars {s sub : String} :
    strContainsSub s sub ↔ sub.data <:+: s.data := by
  constructor
  · rintro ⟨pre, post, rfl⟩
    exact ⟨pre.data, post.data, by simp [String.data_append, List.append_assoc]⟩
  · rintro ⟨u, v, h⟩
    refine ⟨⟨u⟩, ⟨v⟩, String.ext ?_⟩
    simp [String.data_append, ← h, List.append_assoc]

theorem strContainsSub_left {t sub : String} (s : String) (h : strContainsSub t sub) :
    strContainsSub (s ++ t) sub := by
  obtain ⟨pre, post, rfl⟩ := h
  exact ⟨s ++ pre, post, by rw [String.append_assoc]⟩

theorem strContainsSub_mid (a sub b : String) : strContainsSub (a ++ sub ++ b) sub :=
  ⟨a, b, String.append_assoc a sub b⟩

theorem strContainsSub_end (a sub : String) : strContainsSub (a ++ sub) sub :=
  ⟨a, "", by rw [String.append_empty]⟩

theorem str_eq_empty_iff {s : String} : s = "" ↔ s.data = [] := by
  constructor
  · rintro rfl; rfl
  · intro h; cases s; cases h; rfl

theorem mk_eq_empty_iff {l : List Char} : (⟨l⟩ : String) = "" ↔ l = [] := str_eq_empty_iff

theorem cutChars_none_iff {l : List Char} : cutChars l = none ↔ '/' ∉ l := by
  induction l with
  | nil => simp [cutChars]
  | cons c cs ih =>
    by_cases hc : c = '/'
    · simp [cutChars, hc]
    · cases h : cutChars cs with
      | none => simp [cutChars, hc, h, ← ih, Ne.symm hc]
      | some pq => simp [cutChars, hc, h, Ne.symm hc, ← ih]

theorem cutChars_sound {l p q : List Char} (h : cutChars l = some (p, q)) :
    l = p ++ '/' :: q ∧ '/' ∉ p := by
  induction l generalizing p q with
  | nil => simp [cutChars] at h
  | cons c cs ih =>
    by_cases hc : c = '/'
    · simp [cutChars, hc] at h
      obtain ⟨rfl, rfl⟩ := h
      simp [hc]
    · simp [cutChars, hc] at h
      cases h2 : cutChars cs with
      | none => rw [h2] at h; simp at h
      | some pq =>
        rw [h2] at h
        obtain ⟨p0, q0⟩ := pq
        simp at h
        obtain ⟨rfl, rfl⟩ := h
        obtain ⟨h3, h4⟩ := ih h2
        subst h3
        simp [hc, h4, Ne.symm hc]

theorem cutChars_complete {p : List Char} (q : List Char) (hp : '/' ∉ p) :
    cutChars (p ++ '/' :: q) = some (p, q) := by
  induction p with
  | nil => simp [cutChars]
  | cons c cs ih =>
    simp at hp
    push_neg at hp
    obtain ⟨h1, h2⟩ := hp
    simp [cutChars, Ne.symm h1, ih h2]

theorem validateAiModelName_none_iff (name : String) :
    validateAiModelName name = none ↔
      ∃ p q : List Char, name.data = p ++ '/' :: q ∧ p ≠ [] ∧ q ≠ [] ∧ '/' ∉ p := by
  unfold validateAiModelName stringCut
  cases h : cutChars name.data with
  | none =>
    have hnoslash : '/' ∉ name.data := cutChars_none_iff.mp h
    have hrhs : ¬ ∃ p q : List Char, name.data = p ++ '/' :: q ∧ p ≠ [] ∧ q ≠ [] ∧ '/' ∉ p := by
      rintro ⟨p, q, hd, -, -, -⟩
      exact hnoslash (hd ▸ List.mem_append.mpr (Or.inr (List.mem_cons_self _ _)))
    by_cases he : name = "" <;> simp [he, hrhs]
  | some pq =>
    obtain ⟨p, q⟩ := pq
    obtain ⟨hdecomp, hnp⟩ := cutChars_sound h
    have hne : name ≠ "" := by
      simp only [ne_eq, str_eq_empty_iff, hdecomp]
      simp
    rw [if_neg hne]
    show (if (true = false ∨ (⟨p⟩ : String) = "" ∨ (⟨q⟩ : String) = "")
        then some (AdmissionError.basic (malformedModelMsg name)) else none) = none ↔ _
    have hcond : (true = false ∨ (⟨p⟩ : String) = "" ∨ (⟨q⟩ : String) = "") ↔ (p = [] ∨ q = []) := by
      simp [mk_eq_empty_iff]
    rw [if_congr hcond rfl rfl]
    by_cases hpq : p = [] ∨ q = []
    · rw [if_pos hpq]
      constructor
      · intro habs
        exact absurd habs (by simp)
      · rintro ⟨p2, q2, hd2, hp2, hq2, hnp2⟩
        have huniq : cutChars name.data = some (p2, q2) := by
          rw [hd2]
          exact cutChars_complete q2 hnp2
        rw [h] at huniq
        simp at huniq
        obtain ⟨rfl, rfl⟩ := huniq
        rcases hpq with h1 | h1
        · exact absurd h1 hp2
        · exact absurd h1 hq2
    · rw [if_neg hpq]
      push_neg at hpq
      constructor
      · intro _
        exact ⟨p, q, hdecomp, hpq.1, hpq.2, hnp⟩
      · intro _
        rfl

theorem validateAiModelName_reject_form {name : String} (hne : name ≠ "")
    (hrej : validateAiModelName name ≠ none) :
    validateAiModelName name = some (.basic (malformedModelMsg name)) := by
  unfold validateAiModelName at hrej ⊢
  rw [if_neg hne] at hrej ⊢
  by_cases hc : ((stringCut name).2.2 = false ∨ (stringCut name).1 = "" ∨ (stringCut name).2.1 = "")
  · rw [if_pos hc]
  · rw [if_neg hc] at hrej
    exact absurd rfl hrej

theorem findRouterConflict_mem {candName : String} {items : List ModelRouterClass}
    {e : ModelRouterClass} (h : findRouterConflict candName items = some e) :
    e ∈ items ∧ e.metadata.name ≠ candName ∧ isRouterClassDefault e = true := by
  induction items with
  | nil => simp [findRouterConflict] at h
  | cons x rest ih =>
    by_cases hn : x.metadata.name = candName
    · rw [findRouterConflict, if_pos hn] at h
      obtain ⟨h1, h2, h3⟩ := ih h
      exact ⟨List.mem_cons_of_mem _ h1, h2, h3⟩
    · rw [findRouterConflict, if_neg hn] at h
      by_cases hd : isRouterClassDefault x = true
      · rw [if_pos hd] at h
        cases h
        exact ⟨List.mem_cons_self _ _, hn, hd⟩
      · rw [if_neg hd] at h
        obtain ⟨h1, h2, h3⟩ := ih h
        exact ⟨List.mem_cons_of_mem _ h1, h2, h3⟩

theorem findRouterConflict_isSome_iff {candName : String} {items : List ModelRouterClass} :
    (findRouterConflict candName items).isSome = true ↔
      ∃ e ∈ items, e.metadata.name ≠ candName ∧ isRouterClassDefault e = true := by
  induction items with
  | nil => simp [findRouterConflict]
  | cons x rest ih =>
    by_cases hn : x.metadata.name = candName
    · rw [findRouterConflict, if_pos hn, ih]
      constructor
      · rintro ⟨e, he, h1, h2⟩
        exact ⟨e, List.mem_cons_of_mem _ he, h1, h2⟩
      · rintro ⟨e, he, h1, h2⟩
        rcases List.mem_cons.mp he with rfl | he2
        · exact absurd hn h1
        · exact ⟨e, he2, h1, h2⟩
    · rw [findRouterConflict, if_neg hn]
      by_cases hd : isRouterClassDefault x = true
      · rw [if_pos hd]
        simp only [Option.isSome_some, true_iff]
        exact ⟨x, List.mem_cons_self _ _, hn, hd⟩
      · rw [if_neg hd, ih]
        constructor
        · rintro ⟨e, he, h1, h2⟩
          exact ⟨e, List.mem_cons_of_mem _ he, h1, h2⟩
        · rintro ⟨e, he, h1, h2⟩
          rcases List.mem_cons.mp he with rfl | he2
          · exact absurd h2 hd
          · exact ⟨e, he2, h1, h2⟩

theorem findRouterConflict_filter (candName : String) (items : List ModelRouterClass) :
    findRouterConflict candName (items.filter (fun o => o.metadata.name != candName))
      = findRouterConflict candName items := by
  induction items with
  | nil => rfl
  | cons x rest ih =>
    by_cases hn : x.metadata.name = candName
    · rw [List.filter_cons, if_neg (by simp [hn]), ih, findRouterConflict, if_pos hn]
    · rw [List.filter_cons, if_pos (by simp [bne, hn])]
      rw [findRouterConflict, if_neg hn, findRouterConflict, if_neg hn]
      by_cases hd : isRouterClassDefault x = true
      · rw [if_pos hd, if_pos hd]
      · rw [if_neg hd, if_neg hd, ih]

theorem findGatewayConflict_mem {candName : String} {items : List AiGatewayClass}
    {e : AiGatewayClass} (h : findGatewayConflict candName items = some e) :
    e ∈ items ∧ e.metadata.name ≠ candName ∧ isGatewayClassDefault e = true := by
  induction items with
  | nil => simp [findGatewayConflict] at h
  | cons x rest ih =>
    by_cases hn : x.metadata.name = candName
    · rw [findGatewayConflict, if_pos hn] at h
      obtain ⟨h1, h2, h3⟩ := ih h
      exact ⟨List.mem_cons_of_mem _ h1, h2, h3⟩
    · rw [findGatewayConflict, if_neg hn] at h
      by_cases hd : isGatewayClassDefault x = true
      · rw [if_pos hd] at h
        cases h
        exact ⟨List.mem_cons_self _ _, hn, hd⟩
      · rw [if_neg hd] at h
        obtain ⟨h1, h2, h3⟩ := ih h
        exact ⟨List.mem_cons_of_mem _ h1, h2, h3⟩

theorem findGatewayConflict_isSome_iff {candName : String} {items : List AiGatewayClass} :
    (findGatewayConflict candName items).isSome = true ↔
      ∃ e ∈ items, e.metadata.name ≠ candName ∧ isGatewayClassDefault e = true := by
  induction items with
  | nil => simp [findGatewayConflict]
  | cons x rest ih =>
    by_cases hn : x.metadata.name = candName
    · rw [findGatewayConflict, if_pos hn, ih]
      constructor
      · rintro ⟨e, he, h1, h2⟩
        exact ⟨e, List.mem_cons_of_mem _ he, h1, h2⟩
      · rintro ⟨e, he, h1, h2⟩
        rcases List.mem_cons.mp he with rfl | he2
        · exact absurd hn h1
        · exact ⟨e, he2, h1, h2⟩
    · rw [findGatewayConflict, if_neg hn]
      by_cases hd : isGatewayClassDefault x = true
      · rw [if_pos hd]
        simp only [Option.isSome_some, true_iff]
        exact ⟨x, List.mem_cons_self _ _, hn, hd⟩
      · rw [if_neg hd, ih]
        constructor
        · rintro ⟨e, he, h1, h2⟩
          exact ⟨e, List.mem_cons_of_mem _ he, h1, h2⟩
        · rintro ⟨e, he, h1, h2⟩
          rcases List.mem_cons.mp he with rfl | he2
          · exact absurd h2 hd
          · exact ⟨e, he2, h1, h2⟩

theorem findGatewayConflict_filter (candName : String) (items : List AiGatewayClass) :
    findGatewayConflict candName (items.filter (fun o => o.metadata.name != candName))
      = findGatewayConflict candName items := by
  induction items with
  | nil => rfl
  | cons x rest ih =>
    by_cases hn : x.metadata.name = candName
    · rw [List.filter_cons, if_neg (by simp [hn]), ih, findGatewayConflict, if_pos hn]
    · rw [List.filter_cons, if_pos (by simp [bne, hn])]
      rw [findGatewayConflict, if_neg hn, findGatewayConflict, if_neg hn]
      by_cases hd : isGatewayClassDefault x = true
      · rw [if_pos hd, if_pos hd]
      · rw [if_neg hd, if_neg hd, ih]

theorem strContains_invalidField_detail (path key value : String) {detail sub : String}
    (h : strContainsSub detail sub) :
    strContainsSub (AdmissionError.message (.invalidField path key value detail)) sub := by
  unfold AdmissionError.message
  exact strContainsSub_left _ h

theorem strContains_append_of_left {a : String} (b : String) {sub : String}
    (h : strContainsSub a sub) : strContainsSub (a ++ b) sub := by
  rw [strContainsSub_iff_chars] at h ⊢
  rw [String.data_append]
  exact h.trans ⟨[], b.data, by simp⟩

theorem validateModelRouterClass_ok (c : ModelRouterClass) (items : List ModelRouterClass) :
    validateModelRouterClass c (.ok items)
      = if isRouterClassDefault c then
          match findRouterConflict c.metadata.name items with
          | some existing =>
              (none, some (.invalidField "metadata.annotations" routerDefaultClassKey "true"
                (routerConflictDetail existing.metadata.name)))
          | none => (none, none)
        else (none, none) := by
  unfold validateModelRouterClass
  by_cases hm : isRouterClassDefault c = true
  · rw [if_pos hm]
  · rw [if_neg hm]

theorem validateModelRouterClass_listError {c : ModelRouterClass}
    (hm : isRouterClassDefault c = true) (e : String) :
    validateModelRouterClass c (.error e)
      = (none, some (.listWrap "failed to list ModelRouterClass resources: " e)) := by
  unfold validateModelRouterClass
  rw [if_pos hm]

theorem validateModelRouterClass_not_default {c : ModelRouterClass}
    (hm : ¬ isRouterClassDefault c = true) (r : Except String (List ModelRouterClass)) :
    validateModelRouterClass c r = (none, none) := by
  unfold validateModelRouterClass
  rw [if_neg hm]

theorem validateAiGatewayClass_ok (c : AiGatewayClass) (items : List AiGatewayClass) :
    validateAiGatewayClass c (.ok items)
      = if isGatewayClassDefault c then
          match findGatewayConflict c.metadata.name items with
          | some existing =>
              (none, some (.invalidField "metadata.annotations" gatewayDefaultClassKey "true"
                (gatewayConflictDetail existing.metadata.name)))
          | none => (none, none)
        else (none, none) := by
  unfold validateAiGatewayClass
  by_cases hm : isGatewayClassDefault c = true
  · rw [if_pos hm]
  · rw [if_neg hm]

theorem validateAiGatewayClass_listError {c : AiGatewayClass}
    (hm : isGatewayClassDefault c = true) (e : String) :
    validateAiGatewayClass c (.error e)
      = (none, some (.listWrap "failed to list AiGatewayClass resources: " e)) := by
  unfold validateAiGatewayClass
  rw [if_pos hm]

theorem validateAiGatewayClass_not_default {c : AiGatewayClass}
    (hm : ¬ isGatewayClassDefault c = true) (r : Except String (List AiGatewayClass)) :
    validateAiGatewayClass c r = (none, none) := by
  unfold validateAiGatewayClass
  rw [if_neg hm]

/- ------------------------------------------------------------------ -/
/- Claim theorems.                                                     -/
/- ------------------------------------------------------------------ -/

/-- C2: the claim says the gateway-family Spec Validator treats `name` and
`provider` as discrete fields, accepting exactly when both are non-empty
and never requiring a `/` in the name. The code instead parses `name` as a
compound `provider/model` string and never reads `provider`: the repo's
own webhook tests' valid object (`name="gpt-4"`, `provider="openai"`) is
rejected as malformed, and an empty `provider` with a compound name is
accepted. This theorem evaluates the embedded code at both inputs. -/
theorem C2_gateway_compound_parsing_bug :
    (validateAiGatewaySpec gwDiscreteModel).2
      = some (.basic "model \"gpt-4\" is malformed; format must be 'provider/model-name'")
    ∧ (validateAiGatewaySpec gwEmptyProvider).2 = none := by
  exact ⟨by decide, by decide⟩

/-- C3 counterexample: a router candidate with empty `type` and port `0`
(non-positive) is rejected for the missing type, not for the port, and the
message does not contain the port value: the port rule is not applied
first for the router family. -/
theorem C3_counterexample_type_rule_first :
    mrNoType.spec.port ≤ 0
    ∧ (validateModelRouterSpec mrNoType).2 = some (.basic "model router must specify a type")
    ∧ ¬ strContainsSub "model router must specify a type" (toString mrNoType.spec.port) := by
  refine ⟨by decide, by decide, fun h => ?_⟩
  exact absurd (strContainsSub_iff_chars.mp h) (by decide)

/-- C6: for both families the Defaulter sets the port to 4000 exactly when
the incoming port is 0, leaves every non-zero port (negative included)
unchanged, and is idempotent. -/
theorem C6_defaulter_port_semantics :
    (∀ g : AiGateway,
      (g.spec.port = 0 → defaultAiGateway g = { g with spec := { g.spec with port := 4000 } })
      ∧ (g.spec.port ≠ 0 → defaultAiGateway g = g)
      ∧ ((defaultAiGateway g).spec.port = 4000 ↔ g.spec.port = 0 ∨ g.spec.port = 4000)
      ∧ defaultAiGateway (defaultAiGateway g) = defaultAiGateway g)
    ∧ (∀ mr : ModelRouter,
      (mr.spec.port = 0 → defaultModelRouter mr = { mr with spec := { mr.spec with port := 4000 } })
      ∧ (mr.spec.port ≠ 0 → defaultModelRouter mr = mr)
      ∧ ((defaultModelRouter mr).spec.port = 4000 ↔ mr.spec.port = 0 ∨ mr.spec.port = 4000)
      ∧ defaultModelRouter (defaultModelRouter mr) = defaultModelRouter mr) := by
  constructor
  · intro g
    refine ⟨fun h0 => ?_, fun hn => ?_, ?_, ?_⟩
    · unfold defaultAiGateway
      rw [if_pos h0]
    · unfold defaultAiGateway
      rw [if_neg hn]
    · unfold defaultAiGateway
      by_cases h0 : g.spec.port = 0
      · rw [if_pos h0]
        simp [h0]
      · rw [if_neg h0]
        simp [h0]
    · unfold defaultAiGateway
      by_cases h0 : g.spec.port = 0
      · rw [if_pos h0]
        simp
      · rw [if_neg h0, if_neg h0]
  · intro mr
    refine ⟨fun h0 => ?_, fun hn => ?_, ?_, ?_⟩
    · unfold defaultModelRouter
      rw [if_pos h0]
    · unfold defaultModelRouter
      rw [if_neg hn]
    · unfold defaultModelRouter
      by_cases h0 : mr.spec.port = 0
      · rw [if_pos h0]
        simp [h0]
      · rw [if_neg h0]
        simp [h0]
    · unfold defaultModelRouter
      by_cases h0 : mr.spec.port = 0
      · rw [if_pos h0]
        simp
      · rw [if_neg h0, if_neg h0]

/-- C6 witness: the defaulters evaluated at concrete gateways and routers
with zero and with non-zero port. -/
theorem C6_defaulter_port_semantics_witness :
    defaultAiGateway gwZeroPort = { gwZeroPort with spec := { gwZeroPort.spec with port := 4000 } }
    ∧ defaultAiGateway gwNegPort = gwNegPort
    ∧ defaultModelRouter mrZeroPort = { mrZeroPort with spec := { mrZeroPort.spec with port := 4000 } }
    ∧ defaultModelRouter mrValidPort = mrValidPort :=
  ⟨(C6_defaulter_port_semantics.1 gwZeroPort).1 rfl,
   (C6_defaulter_port_semantics.1 gwNegPort).2.1 (by decide),
   (C6_defaulter_port_semantics.2 mrZeroPort).1 rfl,
   (C6_defaulter_port_semantics.2 mrValidPort).2.1 (by decide)⟩

/-- C7: both class kinds' ValidateDelete accept every payload with no
warnings and no error, wrong-typed payloads and default-marked objects
included (the source returns `nil, nil` without a type assertion). -/
theorem C7_class_delete_unconditional :
    ∀ obj : RuntimeObject,
      modelRouterClassValidateDelete obj = (none, none)
      ∧ aiGatewayClassValidateDelete obj = (none, none) :=
  fun _ => ⟨rfl, rfl⟩

/-- C9: for all four kinds, ValidateUpdate depends only on the proposed
object (and, for class kinds, the listing outcome): two different prior
objects yield identical results. -/
theorem C9_update_ignores_prior :
    ∀ (o1 o2 n : RuntimeObject),
      aiGatewayValidateUpdate o1 n = aiGatewayValidateUpdate o2 n
      ∧ modelRouterValidateUpdate o1 n = modelRouterValidateUpdate o2 n
      ∧ (∀ r : Except String (List AiGatewayClass),
          aiGatewayClassValidateUpdate o1 n r = aiGatewayClassValidateUpdate o2 n r)
      ∧ (∀ r : Except String (List ModelRouterClass),
          modelRouterClassValidateUpdate o1 n r = modelRouterClassValidateUpdate o2 n r) :=
  fun _ _ _ => ⟨rfl, rfl, fun _ => rfl, fun _ => rfl⟩

/-- C10: the conflict scan excludes existing objects solely by name
equality with the candidate: dropping every listed object whose name
equals the candidate's never changes the validation result, whatever such
an object's namespace, annotations or other fields hold. -/
theorem C10_same_name_never_conflicts :
    (∀ (c : ModelRouterClass) (items : List ModelRouterClass),
      validateModelRouterClass c (.ok items)
        = validateModelRouterClass c
            (.ok (items.filter (fun o => o.metadata.name != c.metadata.name))))
    ∧ (∀ (c : AiGatewayClass) (items : List AiGatewayClass),
      validateAiGatewayClass c (.ok items)
        = validateAiGatewayClass c
            (.ok (items.filter (fun o => o.metadata.name != c.metadata.name)))) := by
  constructor
  · intro c items
    rw [validateModelRouterClass_ok, validateModelRouterClass_ok, findRouterConflict_filter]
  · intro c items
    rw [validateAiGatewayClass_ok, validateAiGatewayClass_ok, findGatewayConflict_filter]

/-- C1: for a class candidate of either family, with the listing
succeeding, validation rejects exactly when the candidate's annotation
map holds the family's reserved key with value `"true"` and some listed
class with a different name also holds that key with `"true"`; every
rejection's message names such a conflicting object; an unmarked candidate
is accepted whatever the listing outcome would have been (the listing is
not consulted); and ValidateCreate / ValidateUpdate delegate to this
validation on a correctly-typed payload. -/
theorem C1_default_singleton_validation :
    (∀ (c : ModelRouterClass) (items : List ModelRouterClass),
      ((validateModelRouterClass c (.ok items)).2 ≠ none ↔
        isRouterClassDefault c = true ∧
          ∃ e ∈ items, e.metadata.name ≠ c.metadata.name ∧ isRouterClassDefault e = true)
      ∧ (∀ err, (validateModelRouterClass c (.ok items)).2 = some err →
          ∃ e ∈ items, e.metadata.name ≠ c.metadata.name ∧ isRouterClassDefault e = true ∧
            strContainsSub err.message e.metadata.name)
      ∧ (¬ isRouterClassDefault c = true →
          ∀ r : Except String (List ModelRouterClass),
            validateModelRouterClass c r = (none, none))
      ∧ (∀ r : Except String (List ModelRouterClass),
          modelRouterClassValidateCreate (.modelRouterClass c) r = validateModelRouterClass c r
          ∧ ∀ old : RuntimeObject,
              modelRouterClassValidateUpdate old (.modelRouterClass c) r
                = validateModelRouterClass c r))
    ∧ (∀ (c : AiGatewayClass) (items : List AiGatewayClass),
      ((validateAiGatewayClass c (.ok items)).2 ≠ none ↔
        isGatewayClassDefault c = true ∧
          ∃ e ∈ items, e.metadata.name ≠ c.metadata.name ∧ isGatewayClassDefault e = true)
      ∧ (∀ err, (validateAiGatewayClass c (.ok items)).2 = some err →
          ∃ e ∈ items, e.metadata.name ≠ c.metadata.name ∧ isGatewayClassDefault e = true ∧
            strContainsSub err.message e.metadata.name)
      ∧ (¬ isGatewayClassDefault c = true →
          ∀ r : Except String (List AiGatewayClass),
            validateAiGatewayClass c r = (none, none))
      ∧ (∀ r : Except String (List AiGatewayClass),
          aiGatewayClassValidateCreate (.aiGatewayClass c) r = validateAiGatewayClass c r
          ∧ ∀ old : RuntimeObject,
              aiGatewayClassValidateUpdate old (.aiGatewayClass c) r
                = validateAiGatewayClass c r)) := by
  constructor
  · intro c items
    refine ⟨?_, ?_, ?_, fun r => ⟨rfl, fun old => rfl⟩⟩
    · rw [validateModelRouterClass_ok]
      by_cases hm : isRouterClassDefault c = true
      · rw [if_pos hm]
        cases hf : findRouterConflict c.metadata.name items with
        | some e =>
          obtain ⟨h1, h2, h3⟩ := findRouterConflict_mem hf
          constructor
          · intro _
            exact ⟨hm, e, h1, h2, h3⟩
          · intro _
            simp
        | none =>
          constructor
          · intro h
            exact absurd rfl h
          · rintro ⟨-, e, he, h1, h2⟩
            have hs : (findRouterConflict c.metadata.name items).isSome = true :=
              findRouterConflict_isSome_iff.mpr ⟨e, he, h1, h2⟩
            rw [hf] at hs
            cases hs
      · rw [if_neg hm]
        constructor
        · intro h
          exact absurd rfl h
        · rintro ⟨h1, -⟩
          exact absurd h1 hm
    · intro err herr
      rw [validateModelRouterClass_ok] at herr
      by_cases hm : isRouterClassDefault c = true
      · rw [if_pos hm] at herr
        cases hf : findRouterConflict c.metadata.name items with
        | some e =>
          rw [hf] at herr
          obtain ⟨h1, h2, h3⟩ := findRouterConflict_mem hf
          have herr2 : err = AdmissionError.invalidField "metadata.annotations"
              routerDefaultClassKey "true" (routerConflictDetail e.metadata.name) := by
            cases herr
            rfl
          refine ⟨e, h1, h2, h3, ?_⟩
          rw [herr2]
          refine strContains_invalidField_detail _ _ _ ?_
          unfold routerConflictDetail
          exact strContainsSub_mid _ _ _
        | none =>
          rw [hf] at herr
          cases herr
      · rw [if_neg hm] at herr
        cases herr
    · intro hm r
      exact validateModelRouterClass_not_default hm r
  · intro c items
    refine ⟨?_, ?_, ?_, fun r => ⟨rfl, fun old => rfl⟩⟩
    · rw [validateAiGatewayClass_ok]
      by_cases hm : isGatewayClassDefault c = true
      · rw [if_pos hm]
        cases hf : findGatewayConflict c.metadata.name items with
        | some e =>
          obtain ⟨h1, h2, h3⟩ := findGatewayConflict_mem hf
          constructor
          · intro _
            exact ⟨hm, e, h1, h2, h3⟩
          · intro _
            simp
        | none =>
          constructor
          · intro h
            exact absurd rfl h
          · rintro ⟨-, e, he, h1, h2⟩
            have hs : (findGatewayConflict c.metadata.name items).isSome = true :=
              findGatewayConflict_isSome_iff.mpr ⟨e, he, h1, h2⟩
            rw [hf] at hs
            cases hs
      · rw [if_neg hm]
        constructor
        · intro h
          exact absurd rfl h
        · rintro ⟨h1, -⟩
          exact absurd h1 hm
    · intro err herr
      rw [validateAiGatewayClass_ok] at herr
      by_cases hm : isGatewayClassDefault c = true
      · rw [if_pos hm] at herr
        cases hf : findGatewayConflict c.metadata.name items with
        | some e =>
          rw [hf] at herr
          obtain ⟨h1, h2, h3⟩ := findGatewayConflict_mem hf
          have herr2 : err = AdmissionError.invalidField "metadata.annotations"
              gatewayDefaultClassKey "true" (gatewayConflictDetail e.metadata.name) := by
            cases herr
            rfl
          refine ⟨e, h1, h2, h3, ?_⟩
          rw [herr2]
          refine strContains_invalidField_detail _ _ _ ?_
          unfold gatewayConflictDetail
          exact strContainsSub_mid _ _ _
        | none =>
          rw [hf] at herr
          cases herr
      · rw [if_neg hm] at herr
        cases herr
    · intro hm r
      exact validateAiGatewayClass_not_default hm r

/-- C1 witness: a marked candidate `B` conflicting with listed marked `A`
is rejected in both families, and an unmarked candidate is accepted even
when the listing outcome would have been a failure. -/
theorem C1_default_singleton_validation_witness :
    ((validateModelRouterClass rcB (Except.ok [rcA])).2 ≠ none)
    ∧ (∃ e ∈ [rcA], e.metadata.name ≠ rcB.metadata.name ∧ isRouterClassDefault e = true ∧
        strContainsSub (AdmissionError.message (.invalidField "metadata.annotations"
          routerDefaultClassKey "true" (routerConflictDetail rcA.metadata.name)))
          e.metadata.name)
    ∧ validateModelRouterClass rcPlain (Except.error "storage down") = (none, none)
    ∧ ((validateAiGatewayClass gcB (Except.ok [gcA])).2 ≠ none)
    ∧ validateAiGatewayClass gcPlain (Except.error "storage down") = (none, none) :=
  ⟨(C1_default_singleton_validation.1 rcB [rcA]).1.mpr
      ⟨by decide, rcA, by simp, by decide, by decide⟩,
   (C1_default_singleton_validation.1 rcB [rcA]).2.1 _ (by decide),
   (C1_default_singleton_validation.1 rcPlain []).2.2.1 (by decide) _,
   (C1_default_singleton_validation.2 gcB [gcA]).1.mpr
      ⟨by decide, gcA, by simp, by decide, by decide⟩,
   (C1_default_singleton_validation.2 gcPlain []).2.2.1 (by decide) _⟩

/-- C3 (amended): the gateway family rejects every non-positive port first,
with the literal port value in the message; the router family applies the
type rule first, so a non-positive port is rejected with the port value in
the message whenever the type is non-empty, while an empty type is
rejected for the missing type regardless of the port. -/
theorem C3_port_rule :
    (∀ g : AiGateway, g.spec.port ≤ 0 →
      (validateAiGatewaySpec g).2
        = some (.basic ("aiGateway port must be positive, got: " ++ toString g.spec.port))
      ∧ strContainsSub ("aiGateway port must be positive, got: " ++ toString g.spec.port)
          (toString g.spec.port))
    ∧ (∀ mr : ModelRouter, mr.spec.type ≠ "" → mr.spec.port ≤ 0 →
      (validateModelRouterSpec mr).2
        = some (.basic ("modelRouter port must be positive, got: " ++ toString mr.spec.port))
      ∧ strContainsSub ("modelRouter port must be positive, got: " ++ toString mr.spec.port)
          (toString mr.spec.port))
    ∧ (∀ mr : ModelRouter, mr.spec.type = "" →
      (validateModelRouterSpec mr).2 = some (.basic "model router must specify a type")) := by
  refine ⟨fun g hp => ?_, fun mr ht hp => ?_, fun mr ht => ?_⟩
  · constructor
    · unfold validateAiGatewaySpec
      rw [if_pos hp]
    · exact strContainsSub_end _ _
  · constructor
    · unfold validateModelRouterSpec
      rw [if_neg ht, if_pos hp]
    · exact strContainsSub_end _ _
  · unfold validateModelRouterSpec
    rw [if_pos ht]

/-- C3 witness: the port rule evaluated at a gateway with port `-3`, a
router with non-empty type and port `0`, and a router with empty type. -/
theorem C3_port_rule_witness :
    (validateAiGatewaySpec gwNegPort).2
      = some (.basic ("aiGateway port must be positive, got: " ++ toString gwNegPort.spec.port))
    ∧ (validateModelRouterSpec mrZeroPort).2
      = some (.basic ("modelRouter port must be positive, got: " ++ toString mrZeroPort.spec.port))
    ∧ (validateModelRouterSpec mrNoType).2 = some (.basic "model router must specify a type") :=
  ⟨(C3_port_rule.1 gwNegPort (by decide)).1,
   (C3_port_rule.2.1 mrZeroPort (by decide) (by decide)).1,
   C3_port_rule.2.2 mrNoType rfl⟩

/-- C4 counterexample: the component with the empty name has no `/`, yet
its rejection message is the distinct empty-name message, which does not
contain the required `provider/model-name` shape. -/
theorem C4_counterexample_empty_name :
    validateAiModelName "" = some (.basic "AI model name cannot be empty")
    ∧ ¬ strContainsSub "AI model name cannot be empty" "provider/model-name" := by
  refine ⟨rfl, fun h => ?_⟩
  exact absurd (strContainsSub_iff_chars.mp h) (by decide)

/-- C4 (amended): router-family component validation accepts a name exactly
when it splits at its first `/` into a non-empty provider and a non-empty
model part; a non-empty rejected name gets the malformed-name message
containing the literal name and the `provider/model-name` shape; the empty
name is rejected with its own distinct empty-name message. -/
theorem C4_component_name_rule :
    ∀ name : String,
      (validateAiModelName name = none ↔
        ∃ p q : List Char, name.data = p ++ '/' :: q ∧ p ≠ [] ∧ q ≠ [] ∧ '/' ∉ p)
      ∧ (name ≠ "" → validateAiModelName name ≠ none →
          validateAiModelName name = some (.basic (malformedModelMsg name))
          ∧ strContainsSub (malformedModelMsg name) name
          ∧ strContainsSub (malformedModelMsg name) "provider/model-name")
      ∧ (name = "" →
          validateAiModelName name = some (.basic "AI model name cannot be empty")) := by
  intro name
  refine ⟨validateAiModelName_none_iff name, fun hne hrej => ?_, fun he => ?_⟩
  · refine ⟨validateAiModelName_reject_form hne hrej, ?_, ?_⟩
    · unfold malformedModelMsg
      exact strContainsSub_mid _ _ _
    · unfold malformedModelMsg
      refine strContainsSub_left _ ?_
      exact strContainsSub_iff_chars.mpr (by decide)
  · unfold validateAiModelName
    rw [if_pos he]

/-- C4 witness: the rule evaluated at an accepted compound name, a name
without separator, and the empty name. -/
theorem C4_component_name_rule_witness :
    validateAiModelName "openai/gpt-4" = none
    ∧ validateAiModelName "gpt-4" = some (.basic (malformedModelMsg "gpt-4"))
    ∧ validateAiModelName "" = some (.basic "AI model name cannot be empty") :=
  ⟨(C4_component_name_rule "openai/gpt-4").1.mpr
      ⟨"openai".data, "gpt-4".data, by decide, by decide, by decide, by decide⟩,
   ((C4_component_name_rule "gpt-4").2.1 (by decide) (by decide)).1,
   (C4_component_name_rule "").2.2 rfl⟩

/-- C5: for a default-marked class candidate whose listing call fails,
ValidateCreate and ValidateUpdate of both families return the wrapping
listing-failure error (never accepting the candidate), the error message
wraps the underlying cause, and the error differs from every
singleton-conflict validation rejection. -/
theorem C5_list_failure_fail_closed :
    (∀ (c : ModelRouterClass) (e : String) (old : RuntimeObject),
      isRouterClassDefault c = true →
      modelRouterClassValidateCreate (.modelRouterClass c) (.error e)
        = (none, some (.listWrap "failed to list ModelRouterClass resources: " e))
      ∧ modelRouterClassValidateUpdate old (.modelRouterClass c) (.error e)
        = (none, some (.listWrap "failed to list ModelRouterClass resources: " e))
      ∧ strContainsSub
          (AdmissionError.message (.listWrap "failed to list ModelRouterClass resources: " e)) e
      ∧ (∀ path key value detail,
          (AdmissionError.listWrap "failed to list ModelRouterClass resources: " e)
            ≠ .invalidField path key value detail))
    ∧ (∀ (c : AiGatewayClass) (e : String) (old : RuntimeObject),
      isGatewayClassDefault c = true →
      aiGatewayClassValidateCreate (.aiGatewayClass c) (.error e)
        = (none, some (.listWrap "failed to list AiGatewayClass resources: " e))
      ∧ aiGatewayClassValidateUpdate old (.aiGatewayClass c) (.error e)
        = (none, some (.listWrap "failed to list AiGatewayClass resources: " e))
      ∧ strContainsSub
          (AdmissionError.message (.listWrap "failed to list AiGatewayClass resources: " e)) e
      ∧ (∀ path key value detail,
          (AdmissionError.listWrap "failed to list AiGatewayClass resources: " e)
            ≠ .invalidField path key value detail)) := by
  constructor
  · intro c e old hm
    refine ⟨?_, ?_, ?_, ?_⟩
    · show validateModelRouterClass c (.error e) = _
      exact validateModelRouterClass_listError hm e
    · show validateModelRouterClass c (.error e) = _
      exact validateModelRouterClass_listError hm e
    · unfold AdmissionError.message
      exact strContainsSub_end _ _
    · intro path key value detail h
      exact AdmissionError.noConfusion h
  · intro c e old hm
    refine ⟨?_, ?_, ?_, ?_⟩
    · show validateAiGatewayClass c (.error e) = _
      exact validateAiGatewayClass_listError hm e
    · show validateAiGatewayClass c (.error e) = _
      exact validateAiGatewayClass_listError hm e
    · unfold AdmissionError.message
      exact strContainsSub_end _ _
    · intro path key value detail h
      exact AdmissionError.noConfusion h

/-- C5 witness: the failing listing evaluated for the marked candidates of
both families. -/
theorem C5_list_failure_fail_closed_witness :
    modelRouterClassValidateCreate (.modelRouterClass rcB) (.error "storage unreachable")
      = (none, some (.listWrap "failed to list ModelRouterClass resources: " "storage unreachable"))
    ∧ aiGatewayClassValidateCreate (.aiGatewayClass gcB) (.error "storage unreachable")
      = (none, some (.listWrap "failed to list AiGatewayClass resources: " "storage unreachable")) :=
  ⟨(C5_list_failure_fail_closed.1 rcB "storage unreachable" (.other "x") (by decide)).1,
   (C5_list_failure_fail_closed.2 gcB "storage unreachable" (.other "x") (by decide)).1⟩

/-- C8: for the instance kinds, ValidateDelete rejects exactly the payloads
that are not of the expected concrete kind, with a message naming the
expected kind and the actual observed type, and accepts every
correctly-typed instance without looking at its spec. -/
theorem C8_instance_delete_type_check :
    ∀ obj : RuntimeObject,
      ((∃ g : AiGateway, obj = .aiGateway g) → aiGatewayValidateDelete obj = (none, none))
      ∧ ((∀ g : AiGateway, obj ≠ .aiGateway g) →
          aiGatewayValidateDelete obj
            = (none, some (.basic ("expected a AiGateway object but got " ++ obj.goTypeName)))
          ∧ strContainsSub ("expected a AiGateway object but got " ++ obj.goTypeName) "AiGateway"
          ∧ strContainsSub ("expected a AiGateway object but got " ++ obj.goTypeName)
              obj.goTypeName)
      ∧ ((∃ r : ModelRouter, obj = .modelRouter r) → modelRouterValidateDelete obj = (none, none))
      ∧ ((∀ r : ModelRouter, obj ≠ .modelRouter r) →
          modelRouterValidateDelete obj
            = (none, some (.basic ("expected a ModelRouter object but got " ++ obj.goTypeName)))
          ∧ strContainsSub ("expected a ModelRouter object but got " ++ obj.goTypeName)
              "ModelRouter"
          ∧ strContainsSub ("expected a ModelRouter object but got " ++ obj.goTypeName)
              obj.goTypeName) := by
  intro obj
  have hgw : strContainsSub ("expected a AiGateway object but got " ++ obj.goTypeName)
      "AiGateway" :=
    strContains_append_of_left _ (strContainsSub_iff_chars.mpr (by decide))
  have hmr : strContainsSub ("expected a ModelRouter object but got " ++ obj.goTypeName)
      "ModelRouter" :=
    strContains_append_of_left _ (strContainsSub_iff_chars.mpr (by decide))
  cases obj with
  | aiGateway g =>
    refine ⟨fun _ => rfl, fun h => absurd rfl (h g), ?_, fun _ => ⟨rfl, hmr, strContainsSub_end _ _⟩⟩
    rintro ⟨r, hr⟩
    cases hr
  | modelRouter r =>
    refine ⟨?_, fun _ => ⟨rfl, hgw, strContainsSub_end _ _⟩, fun _ => rfl, fun h => absurd rfl (h r)⟩
    rintro ⟨g, hg⟩
    cases hg
  | aiGatewayClass c =>
    refine ⟨?_, fun _ => ⟨rfl, hgw, strContainsSub_end _ _⟩, ?_,
      fun _ => ⟨rfl, hmr, strContainsSub_end _ _⟩⟩
    · rintro ⟨g, hg⟩
      cases hg
    · rintro ⟨r, hr⟩
      cases hr
  | modelRouterClass c =>
    refine ⟨?_, fun _ => ⟨rfl, hgw, strContainsSub_end _ _⟩, ?_,
      fun _ => ⟨rfl, hmr, strContainsSub_end _ _⟩⟩
    · rintro ⟨g, hg⟩
      cases hg
    · rintro ⟨r, hr⟩
      cases hr
  | other t =>
    refine ⟨?_, fun _ => ⟨rfl, hgw, strContainsSub_end _ _⟩, ?_,
      fun _ => ⟨rfl, hmr, strContainsSub_end _ _⟩⟩
    · rintro ⟨g, hg⟩
      cases hg
    · rintro ⟨r, hr⟩
      cases hr

/-- C8 witness: delete of a correctly-typed instance (with an invalid spec)
accepted, delete of a wrong-typed payload rejected with the expected-kind
message. -/
theorem C8_instance_delete_type_check_witness :
    aiGatewayValidateDelete (.aiGateway gwDiscreteModel) = (none, none)
    ∧ modelRouterValidateDelete (.modelRouter mrNoType) = (none, none)
    ∧ modelRouterValidateDelete (.aiGateway gwDiscreteModel)
        = (none, some (.basic ("expected a ModelRouter object but got "
            ++ (RuntimeObject.aiGateway gwDiscreteModel).goTypeName))) :=
  ⟨(C8_instance_delete_type_check (.aiGateway gwDiscreteModel)).1 ⟨gwDiscreteModel, rfl⟩,
   (C8_instance_delete_type_check (.modelRouter mrNoType)).2.2.1 ⟨mrNoType, rfl⟩,
   ((C8_instance_delete_type_check (.aiGateway gwDiscreteModel)).2.2.2
      (fun _ h => RuntimeObject.noConfusion h)).1⟩
